import Mathlib

/-!
Verification of the single-site-plan generator (`src/app.py`).

The program is a linear pipeline: form inputs → layout arithmetic over fixed
A3 page constants → emission of drawing primitives into a vector document →
two stitched map insets.  We embed the layout arithmetic over `ℚ` (Python
floats are modelled as exact rationals; the decimal literals of the source
are taken at face value), the emission sequence as a Lean list of drawing
primitives, and the external capabilities (HTTP tile fetches, geocoding,
Python `float` parsing, the DXF text serializer, and the transcendental
functions of Python's `math` module) as explicit function parameters, with
exception-raising calls modelled as `Option`-valued functions.
-/

namespace SitePlan

/-- The four compass sides of the plot, keys of the `road_info` dict in
`src/app.py` (insertion order North, South, East, West). -/
inductive Side where
  | north | south | east | west
  deriving DecidableEq, Repr

/-- Per-side road data, one entry of the `road_info` dict:
`{"exists": exists, "width": width}`.  The `exists` key is rendered as
`present` because `exists` is a Lean keyword. -/
structure RoadSpec where
  present : Bool
  width : ℚ
  deriving DecidableEq, Repr

/-- The form inputs consumed by the generation branch of `src/app.py`
(`site_length_m`, `site_width_m`, the `road_info` dict and the free-text
identification fields). -/
structure Inputs where
  survey_no : String
  village : String
  taluk : String
  epid : String
  ward_no : String
  constituency : String
  total_builtup : ℚ
  site_length_m : ℚ
  site_width_m : ℚ
  roads : Side → RoadSpec

/-! ### Page layout constants (mm), lines 154-161 of `src/app.py` -/

def PAGE_W_MM : ℚ := 420
def PAGE_H_MM : ℚ := 297
def LEFT : ℚ := 12
def RIGHT : ℚ := 12
def TOP : ℚ := 12
def BOTTOM : ℚ := 12
def INFO_GAP : ℚ := 15
def DRAW_W : ℚ := PAGE_W_MM * 0.62
def DRAW_H : ℚ := PAGE_H_MM - TOP - BOTTOM
def DRAW_X : ℚ := LEFT
def DRAW_Y : ℚ := BOTTOM
def INFO_X : ℚ := DRAW_X + DRAW_W + INFO_GAP

/-! ### Scale factor and plot rectangle, lines 178-197 of `src/app.py` -/

def inner_pad_mm : ℚ := 8
def usable_w_mm : ℚ := DRAW_W - 2 * inner_pad_mm
def usable_h_mm : ℚ := DRAW_H - 2 * inner_pad_mm
def mm_per_m_default : ℚ := 1000 / 100

/-- `mm_per_m_use` (lines 182-185): the canonical 10 mm-per-metre scale when
the plot fits the usable interior at that scale, otherwise the best uniform
fit scale. -/
def mm_per_m_use (inp : Inputs) : ℚ :=
  if inp.site_width_m * mm_per_m_default ≤ usable_w_mm ∧
      inp.site_length_m * mm_per_m_default ≤ usable_h_mm then
    mm_per_m_default
  else
    min (usable_w_mm / inp.site_width_m) (usable_h_mm / inp.site_length_m)

/-- `site_w_mm_draw` (line 188): scaled plot width on the sheet, in mm. -/
def site_w_mm_draw (inp : Inputs) : ℚ := inp.site_width_m * mm_per_m_use inp

/-- `site_h_mm_draw` (line 189): scaled plot height on the sheet, in mm. -/
def site_h_mm_draw (inp : Inputs) : ℚ := inp.site_length_m * mm_per_m_use inp

/-- `site_x_mm` (line 190): x of the plot rectangle, centered in the usable
interior. -/
def site_x_mm (inp : Inputs) : ℚ :=
  DRAW_X + inner_pad_mm + (usable_w_mm - site_w_mm_draw inp) / 2

/-- `site_y_mm` (line 191): y of the plot rectangle, centered in the usable
interior. -/
def site_y_mm (inp : Inputs) : ℚ :=
  DRAW_Y + inner_pad_mm + (usable_h_mm - site_h_mm_draw inp) / 2

/-! ### Mm-to-metre conversion of the plot rectangle, lines 194-197 -/

def site_x_m (inp : Inputs) : ℚ := site_x_mm inp / 1000
def site_y_m (inp : Inputs) : ℚ := site_y_mm inp / 1000
def site_w_m_draw (inp : Inputs) : ℚ := site_w_mm_draw inp / 1000
def site_h_m_draw (inp : Inputs) : ℚ := site_h_mm_draw inp / 1000

/-! ### Basic facts about the usable interior -/

lemma usable_w_mm_pos : 0 < usable_w_mm := by
  norm_num [usable_w_mm, DRAW_W, PAGE_W_MM, inner_pad_mm]

lemma usable_h_mm_pos : 0 < usable_h_mm := by
  norm_num [usable_h_mm, DRAW_H, PAGE_H_MM, TOP, BOTTOM, inner_pad_mm]

lemma mm_per_m_use_pos (inp : Inputs) (hw : 0 < inp.site_width_m)
    (hl : 0 < inp.site_length_m) : 0 < mm_per_m_use inp := by
  unfold mm_per_m_use
  split
  · norm_num [mm_per_m_default]
  · exact lt_min (div_pos usable_w_mm_pos hw) (div_pos usable_h_mm_pos hl)

lemma site_w_mm_draw_le (inp : Inputs) (hw : 0 < inp.site_width_m) :
    site_w_mm_draw inp ≤ usable_w_mm := by
  unfold site_w_mm_draw mm_per_m_use
  split
  · next h => exact h.1
  · calc inp.site_width_m *
        min (usable_w_mm / inp.site_width_m) (usable_h_mm / inp.site_length_m)
        ≤ inp.site_width_m * (usable_w_mm / inp.site_width_m) :=
          mul_le_mul_of_nonneg_left (min_le_left _ _) hw.le
      _ = usable_w_mm := by field_simp

lemma site_h_mm_draw_le (inp : Inputs) (hl : 0 < inp.site_length_m) :
    site_h_mm_draw inp ≤ usable_h_mm := by
  unfold site_h_mm_draw mm_per_m_use
  split
  · next h => exact h.2
  · calc inp.site_length_m *
        min (usable_w_mm / inp.site_width_m) (usable_h_mm / inp.site_length_m)
        ≤ inp.site_length_m * (usable_h_mm / inp.site_length_m) :=
          mul_le_mul_of_nonneg_left (min_le_right _ _) hl.le
      _ = usable_h_mm := by field_simp

/-! ### Road bands, lines 228-267 of `src/app.py` -/

/-- `road_band_mm` (line 233): thickness of a side's road band, in mm. -/
def road_band_mm (inp : Inputs) (side : Side) : ℚ :=
  (inp.roads side).width * mm_per_m_use inp

/-- `poly_mm` (lines 234-260): the closed road-band polygon for a side, as
the explicit vertex list the source builds. -/
def road_poly_mm (inp : Inputs) (side : Side) : List (ℚ × ℚ) :=
  match side with
  | .north =>
      [(site_x_mm inp, site_y_mm inp + site_h_mm_draw inp),
       (site_x_mm inp + site_w_mm_draw inp, site_y_mm inp + site_h_mm_draw inp),
       (site_x_mm inp + site_w_mm_draw inp,
        site_y_mm inp + site_h_mm_draw inp + road_band_mm inp .north),
       (site_x_mm inp, site_y_mm inp + site_h_mm_draw inp + road_band_mm inp .north),
       (site_x_mm inp, site_y_mm inp + site_h_mm_draw inp)]
  | .south =>
      [(site_x_mm inp, site_y_mm inp - road_band_mm inp .south),
       (site_x_mm inp + site_w_mm_draw inp, site_y_mm inp - road_band_mm inp .south),
       (site_x_mm inp + site_w_mm_draw inp, site_y_mm inp),
       (site_x_mm inp, site_y_mm inp),
       (site_x_mm inp, site_y_mm inp - road_band_mm inp .south)]
  | .east =>
      [(site_x_mm inp + site_w_mm_draw inp, site_y_mm inp),
       (site_x_mm inp + site_w_mm_draw inp + road_band_mm inp .east, site_y_mm inp),
       (site_x_mm inp + site_w_mm_draw inp + road_band_mm inp .east,
        site_y_mm inp + site_h_mm_draw inp),
       (site_x_mm inp + site_w_mm_draw inp, site_y_mm inp + site_h_mm_draw inp),
       (site_x_mm inp + site_w_mm_draw inp, site_y_mm inp)]
  | .west =>
      [(site_x_mm inp - road_band_mm inp .west, site_y_mm inp),
       (site_x_mm inp, site_y_mm inp),
       (site_x_mm inp, site_y_mm inp + site_h_mm_draw inp),
       (site_x_mm inp - road_band_mm inp .west, site_y_mm inp + site_h_mm_draw inp),
       (site_x_mm inp - road_band_mm inp .west, site_y_mm inp)]

/-- `label_mm` (lines 240-261): anchor point of a side's road label, centered
on the band and offset 3 mm outward. -/
def road_label_mm (inp : Inputs) (side : Side) : ℚ × ℚ :=
  match side with
  | .north =>
      (site_x_mm inp + site_w_mm_draw inp / 2,
       site_y_mm inp + site_h_mm_draw inp + road_band_mm inp .north / 2 + 3)
  | .south =>
      (site_x_mm inp + site_w_mm_draw inp / 2,
       site_y_mm inp - road_band_mm inp .south / 2 - 3)
  | .east =>
      (site_x_mm inp + site_w_mm_draw inp + road_band_mm inp .east / 2 + 3,
       site_y_mm inp + site_h_mm_draw inp / 2)
  | .west =>
      (site_x_mm inp - road_band_mm inp .west / 2 - 3,
       site_y_mm inp + site_h_mm_draw inp / 2)

/-- The road-emission guard of the loop at lines 229-231: a side contributes
its band polygon and label only when its `exists` flag is set; sides with the
flag cleared contribute nothing (`continue`). -/
def roadGeometry (inp : Inputs) (side : Side) :
    Option (List (ℚ × ℚ) × (ℚ × ℚ)) :=
  if (inp.roads side).present then
    some (road_poly_mm inp side, road_label_mm inp side)
  else
    none

/-- The closed polygon of an axis-aligned rectangle with lower-left corner
`(x, y)`, width `w` and height `h`, in the vertex order the source uses. -/
def rectPoly (x y w h : ℚ) : List (ℚ × ℚ) :=
  [(x, y), (x + w, y), (x + w, y + h), (x, y + h), (x, y)]

/-! ### ADLR inset parameters, lines 147-149 of `src/app.py` -/

/-- Zoom and buffer radius of one map inset. -/
structure MapInsetParams where
  zoom : ℤ
  radius_m : ℚ
  deriving DecidableEq, Repr

/-- `adlr_zoom` (line 148). -/
def adlr_zoom (kp_zoom : ℤ) : ℤ := min 19 (kp_zoom + 3)

/-- `adlr_buffer_m` (line 149). -/
def adlr_buffer_m : ℚ := 50

/-- The ADLR inset parameters as derived from the key-plan form inputs: the
source computes the zoom from `kp_zoom` alone and uses the fixed buffer,
never reading `kp_radius_m`. -/
def adlr_params (kp_zoom : ℤ) (_kp_radius_m : ℚ) : MapInsetParams :=
  ⟨adlr_zoom kp_zoom, adlr_buffer_m⟩

/-! ### Title-block scale text, line 420 of `src/app.py` -/

/-- The scale line of the title block: `f"SCALE : 1:{int(100)}"`, a constant
string independent of the inputs and in particular of `mm_per_m_use`. -/
def title_scale_text (_inp : Inputs) : String :=
  "SCALE : 1:" ++ toString (100 : ℤ)

/-! ### Key-plan center resolution, lines 123-145 of `src/app.py` -/

/-- The fixed default map center (line 145, Bangalore). -/
def default_center : ℚ × ℚ := (12.9715987, 77.5945627)

/-- Python `s.split(",", 1)` (line 128): the text before the first comma,
and everything after it (the whole string paired with `""` when no comma
occurs). -/
def split_once_comma (s : String) : String × String :=
  match s.splitOn "," with
  | [] => (s, "")
  | [a] => (a, "")
  | a :: rest => (a, String.intercalate "," rest)

/-- Python `"," in kp_center_txt` (line 126), as a membership test over the
string's character list (`String.contains` itself does not reduce in the
kernel). -/
def contains_comma (s : String) : Bool := s.toList.contains ','

/-- `picked_latlon` resolution (lines 123-145).  Python's `float` parser and
the Nominatim geocoding call (which takes the first result, and whose
request failure, JSON failure, empty result list or `float` failure on the
result all end in the `except` arm) are external capabilities modelled as
`Option`-valued parameters.  A `None` outcome of either branch — or blank
input — falls through to the fixed default center. -/
def resolve_center (pyFloat : String → Option ℚ)
    (geocode : String → Option (ℚ × ℚ)) (kp_center_txt : String) : ℚ × ℚ :=
  let picked : Option (ℚ × ℚ) :=
    if kp_center_txt.trim ≠ "" then
      if contains_comma kp_center_txt then
        match pyFloat (split_once_comma kp_center_txt).1.trim,
            pyFloat (split_once_comma kp_center_txt).2.trim with
        | some a, some b => some (a, b)
        | _, _ => none
      else
        geocode kp_center_txt
    else
      none
  picked.getD default_center

/-! ### Drawing primitives and the safe text wrapper, lines 23-36 -/

/-- Text content of an emitted text primitive.  Constant and
string-concatenation contents are carried verbatim as `str`; the four
contents whose Python f-string formats a float (`{...:.1f}` / `{...:.2f}`)
are carried as the formatted value itself, since decimal float rendering is
external formatting. -/
inductive TContent where
  | str (s : String)
  | roadLabel (side : Side) (w : ℚ)
  | areaCell (a : ℚ)
  | builtup (b : ℚ)
  | siteDims (l w : ℚ)
  deriving DecidableEq, Repr

/-- The arguments of one `safe_add_text` call (content, height, insert
position, layer, alignment). -/
structure TextReq where
  content : TContent
  height : ℚ
  pos : ℚ × ℚ
  layer : String
  align : String
  deriving DecidableEq, Repr

/-- One drawing primitive appended to the DXF modelspace.  Raster image
inserts are identified by a tag plus insert point and size. -/
inductive Prim where
  | lwpolyline (pts : List (ℚ × ℚ)) (layer : String) (closed : Bool)
      (linetype : Option String)
  | text (t : TextReq)
  | mtext (content : List String) (height width : ℚ) (layer : String) (loc : ℚ × ℚ)
  | line (a b : ℚ × ℚ) (layer : String)
  | image (tag : String) (insert : ℚ × ℚ) (size : ℚ × ℚ)
  deriving DecidableEq, Repr

/-- `safe_add_text` (lines 23-36): attempt one `add_text` call; the
serializer capability `ser` says whether `add_text` accepts the request.  On
acceptance the text primitive is appended; on rejection the exception is
caught, nothing is appended, and one warning (carrying the skipped request)
is surfaced. -/
def safe_add_text (ser : TextReq → Bool) (t : TextReq) :
    List Prim × List TextReq :=
  if ser t then ([Prim.text t], []) else ([], [t])

/-- Sequential emission of text requests through `safe_add_text`,
concatenating emitted primitives and warnings in order. -/
def emit_texts (ser : TextReq → Bool) : List TextReq → List Prim × List TextReq
  | [] => ([], [])
  | t :: ts =>
      ((safe_add_text ser t).1 ++ (emit_texts ser ts).1,
       (safe_add_text ser t).2 ++ (emit_texts ser ts).2)

lemma emit_texts_fst (ser : TextReq → Bool) (ts : List TextReq) :
    (emit_texts ser ts).1 = (ts.filter ser).map Prim.text := by
  induction ts with
  | nil => rfl
  | cons t ts ih =>
    by_cases h : ser t <;>
      simp [emit_texts, safe_add_text, h, List.filter_cons, ih]

lemma emit_texts_snd (ser : TextReq → Bool) (ts : List TextReq) :
    (emit_texts ser ts).2 = ts.filter (fun t => ! ser t) := by
  induction ts with
  | nil => rfl
  | cons t ts ih =>
    by_cases h : ser t <;>
      simp [emit_texts, safe_add_text, h, List.filter_cons, ih]

lemma emit_texts_append (ser : TextReq → Bool) (l₁ l₂ : List TextReq) :
    emit_texts ser (l₁ ++ l₂) =
      ((emit_texts ser l₁).1 ++ (emit_texts ser l₂).1,
       (emit_texts ser l₁).2 ++ (emit_texts ser l₂).2) := by
  induction l₁ with
  | nil => simp [emit_texts]
  | cons t ts ih => simp [emit_texts, ih]

/-! ### Map utilities, lines 40-83 of `src/app.py` -/

/-- The transcendental functions of Python's `math` module used by
`latlon_to_tile_xy` and `make_keyplan_image` (`log`, `tan`, `cos`, `pi`);
they have no exact executable counterpart, so the embedding abstracts them
as parameters. -/
structure Transcend where
  log : ℚ → ℚ
  tan : ℚ → ℚ
  cos : ℚ → ℚ
  pi : ℚ

/-- `latlon_to_tile_xy` (lines 40-45): Web-Mercator slippy-map tile
coordinates; `math.radians` is `· * pi / 180`. -/
def latlon_to_tile_xy (tc : Transcend) (lat_deg lon_deg : ℚ) (zoom : ℕ) :
    ℚ × ℚ :=
  let lat_rad := lat_deg * tc.pi / 180
  let n : ℚ := 2 ^ zoom
  let xtile := (lon_deg + 180) / 360 * n
  let ytile := (1 - tc.log (tc.tan lat_rad + 1 / tc.cos lat_rad) / tc.pi) / 2 * n
  (xtile, ytile)

/-- A raster image: size plus a pixel function (RGBA). -/
structure Img where
  width : ℕ
  height : ℕ
  pixel : ℕ → ℕ → ℕ × ℕ × ℕ × ℕ

/-- `Image.new("RGBA", (size, size), color)`: a uniform solid square. -/
def imageNew (size : ℕ) (color : ℕ × ℕ × ℕ × ℕ) : Img :=
  ⟨size, size, fun _ _ => color⟩

/-- `256 * (2 if scale == 2 else 1)`: pixel size of one tile (lines 59, 66). -/
def tile_px_of (scale : ℕ) : ℕ := 256 * (if scale = 2 then 2 else 1)

/-- The uniform solid placeholder tile of line 60, at the pixel size of the
given tile scale. -/
def placeholder_tile (scale : ℕ) : Img :=
  imageNew (tile_px_of scale) (240, 240, 240, 255)

/-- `fetch_tile_image` (lines 47-60): the HTTP layer (request, status check
and PNG decode, any of which may raise) is the capability `http`; on `none`
(any fetch failure) the solid placeholder tile is returned instead of
propagating an error. -/
def fetch_tile_image (http : ℕ → ℤ → ℤ → ℕ → Option Img) (z : ℕ) (x y : ℤ)
    (scale : ℕ) : Img :=
  match http z x y scale with
  | some img => img
  | none => placeholder_tile scale

/-- Python `int(q)`: truncation toward zero. -/
def pyInt (q : ℚ) : ℤ := if q < 0 then ⌈q⌉ else ⌊q⌋

/-- Python `range(a, b)` over integers. -/
def pyRange (a b : ℤ) : List ℤ :=
  (List.range (b - a).toNat).map (fun i : ℕ => a + (i : ℤ))

/-- The composed key-plan/ADLR inset: the stitched canvas size, the log of
tile pastes (image and top-left position), and the two `ImageDraw.ellipse`
calls (buffer circle outline and center dot), as bounding boxes. -/
structure Stitched where
  size : ℕ × ℕ
  pastes : List (Img × ℤ × ℤ)
  circle_bbox : List ℤ
  circle_width : ℕ
  dot_bbox : List ℤ

/-- `make_keyplan_image` (lines 62-83): stitch a `(2*tiles_radius+1)²` grid
of tiles around the floor of the center tile coordinates, then draw the
buffer circle (radius converted via the metres-per-pixel factor) and a
center dot at the fractional-tile pixel offset of the true center. -/
def make_keyplan_image (tc : Transcend) (http : ℕ → ℤ → ℤ → ℕ → Option Img)
    (lat lon : ℚ) (zoom : ℕ) (radius_m : ℚ) (tiles_radius : ℕ) (scale : ℕ) :
    Stitched :=
  let xy := latlon_to_tile_xy tc lat lon zoom
  let x_center : ℤ := ⌊xy.1⌋
  let y_center : ℤ := ⌊xy.2⌋
  let tile_px : ℕ := tile_px_of scale
  let cols : ℕ := 2 * tiles_radius + 1
  let pastes :=
    (pyRange (-(tiles_radius : ℤ)) ((tiles_radius : ℤ) + 1)).flatMap fun dy =>
      (pyRange (-(tiles_radius : ℤ)) ((tiles_radius : ℤ) + 1)).map fun dx =>
        (fetch_tile_image http zoom (x_center + dx) (y_center + dy) scale,
          ((dx + (tiles_radius : ℤ)) * (tile_px : ℤ),
           (dy + (tiles_radius : ℤ)) * (tile_px : ℤ)))
  let frac_x := xy.1 - (x_center : ℚ)
  let frac_y := xy.2 - (y_center : ℚ)
  let center_px : ℤ × ℤ :=
    ((tiles_radius : ℤ) * (tile_px : ℤ) + pyInt (frac_x * (tile_px : ℚ)),
     (tiles_radius : ℤ) * (tile_px : ℤ) + pyInt (frac_y * (tile_px : ℚ)))
  let R : ℚ := 6378137
  let mpp := (tc.cos (lat * tc.pi / 180) * 2 * tc.pi * R) /
    ((tile_px : ℚ) * 2 ^ zoom)
  let radius_px : ℤ := max 3 (pyInt (radius_m / mpp))
  { size := (cols * tile_px, cols * tile_px)
    pastes := pastes
    circle_bbox := [center_px.1 - radius_px, center_px.2 - radius_px,
      center_px.1 + radius_px, center_px.2 + radius_px]
    circle_width := 6
    dot_bbox := [center_px.1 - 3, center_px.2 - 3,
      center_px.1 + 3, center_px.2 + 3] }

/-- The always-failing tile-fetch capability of claim C6. -/
def failHttp : ℕ → ℤ → ℤ → ℕ → Option Img := fun _ _ _ _ => none

lemma pyRange_length (a b : ℤ) : (pyRange a b).length = (b - a).toNat := by
  unfold pyRange
  rw [List.length_map, List.length_range]

lemma length_flatMap_map {α β γ : Type} (l₁ : List α) (l₂ : List β)
    (g : α → β → γ) :
    (l₁.flatMap fun a => l₂.map (g a)).length = l₁.length * l₂.length := by
  induction l₁ with
  | nil => simp
  | cons x xs ih => simp [List.flatMap_cons, ih, Nat.succ_mul, Nat.add_comm]

/-! ### The full emission sequence, lines 199-448 of `src/app.py`

The generation branch appends primitives to the DXF modelspace in a fixed
order.  The outcomes of the four `try` blocks whose success depends on
external capabilities (the two image insertions, lines 285-301 and 312-323,
and the two MTEXT insertions, lines 377-384 and 395-401) and the text
serializer behind `safe_add_text` are collected in an `Env`; the whole
emitted sequence is then a pure function of `Env` and the form `Inputs`. -/

/-- Outcomes of the externally-dependent steps of one generation run. -/
structure Env where
  textOk : TextReq → Bool
  keyplanOk : Bool
  adlrOk : Bool
  gcMtextOk : Bool
  notesMtextOk : Bool

/-- The primitives (0 or 1) appended by one `safe_add_text` call with the
default `layer="TEXT"`, under `Env`'s serializer. -/
def safeText (env : Env) (c : TContent) (h : ℚ) (p : ℚ × ℚ) (a : String) :
    List Prim :=
  (safe_add_text env.textOk ⟨c, h, p, "TEXT", a⟩).1

/-- `border_poly` (lines 200-206). -/
def border_poly : List (ℚ × ℚ) :=
  [(LEFT / 1000, BOTTOM / 1000),
   ((PAGE_W_MM - LEFT) / 1000, BOTTOM / 1000),
   ((PAGE_W_MM - LEFT) / 1000, (PAGE_H_MM - BOTTOM) / 1000),
   (LEFT / 1000, (PAGE_H_MM - BOTTOM) / 1000),
   (LEFT / 1000, BOTTOM / 1000)]

/-- `draw_rect` (lines 210-216). -/
def draw_rect : List (ℚ × ℚ) :=
  [(DRAW_X / 1000, DRAW_Y / 1000),
   ((DRAW_X + DRAW_W) / 1000, DRAW_Y / 1000),
   ((DRAW_X + DRAW_W) / 1000, (DRAW_Y + DRAW_H) / 1000),
   (DRAW_X / 1000, (DRAW_Y + DRAW_H) / 1000),
   (DRAW_X / 1000, DRAW_Y / 1000)]

/-- The dashed site rectangle polygon (lines 220-226), in metres. -/
def site_poly_m (inp : Inputs) : List (ℚ × ℚ) :=
  [(site_x_m inp, site_y_m inp),
   (site_x_m inp + site_w_m_draw inp, site_y_m inp),
   (site_x_m inp + site_w_m_draw inp, site_y_m inp + site_h_m_draw inp),
   (site_x_m inp, site_y_m inp + site_h_m_draw inp),
   (site_x_m inp, site_y_m inp)]

/-- Primitives emitted before the road loop: page border, drawing-pane
border, dashed site rectangle (lines 199-226). -/
def pre_prims (inp : Inputs) : List Prim :=
  [.lwpolyline border_poly "BORDER" true none,
   .lwpolyline draw_rect "BORDER" true none,
   .lwpolyline (site_poly_m inp) "SITE" true (some "GBA_DASH")]

/-- One iteration of the road loop (lines 229-267): nothing when the side's
flag is cleared; otherwise the band polygon (converted mm → m) on layer
`ROAD` followed by the road label through `safe_add_text`. -/
def road_side_prims (env : Env) (inp : Inputs) (side : Side) : List Prim :=
  match roadGeometry inp side with
  | none => []
  | some g =>
      Prim.lwpolyline (g.1.map (fun p => (p.1 / 1000, p.2 / 1000))) "ROAD" true none ::
        safeText env (.roadLabel side (inp.roads side).width) 0.009
          (g.2.1 / 1000, g.2.2 / 1000) "MIDDLE_CENTER"

/-- Iteration order of `road_info.items()` (dict insertion order). -/
def sidesOrder : List Side := [.north, .south, .east, .west]

/-- All primitives of the road loop, in iteration order. -/
def road_prims (env : Env) (inp : Inputs) : List Prim :=
  sidesOrder.flatMap (road_side_prims env inp)

/-! Right-column and title-block layout constants (lines 273-440). -/

def key_w_mm : ℚ := 110
def key_h_mm : ℚ := 70
def key_x_mm : ℚ := INFO_X
def key_y_mm : ℚ := PAGE_H_MM - TOP - key_h_mm
def key_x_m : ℚ := key_x_mm / 1000
def key_y_m : ℚ := key_y_mm / 1000
def na_x_m : ℚ := (key_x_mm + key_w_mm - 8) / 1000
def na_y_m : ℚ := (key_y_mm + key_h_mm - 18) / 1000
def adlr_w_mm : ℚ := 110
def adlr_h_mm : ℚ := 65
def adlr_x_mm : ℚ := INFO_X
def adlr_y_mm : ℚ := key_y_mm - adlr_h_mm - 10
def adlr_x_m : ℚ := adlr_x_mm / 1000
def adlr_y_m : ℚ := adlr_y_mm / 1000
def lut_x_mm : ℚ := INFO_X
def lut_y_mm : ℚ := adlr_y_mm - 10
def tbl_w_mm : ℚ := 12 + 55 + 30 + 20
def header_y_mm : ℚ := lut_y_mm + 12
def row_h_mm : ℚ := 6.5
def gc_x_mm : ℚ := INFO_X
def gc_start_y_mm : ℚ := header_y_mm - (2 + 1.2) * row_h_mm - 8
def note_y_mm : ℚ := gc_start_y_mm - 85
def tb_x_mm : ℚ := LEFT
def tb_y_mm : ℚ := BOTTOM
def tb_w_mm : ℚ := PAGE_W_MM - LEFT - RIGHT
def tb_h_mm : ℚ := 35
def tb_x_m : ℚ := tb_x_mm / 1000
def tb_y_m : ℚ := tb_y_mm / 1000
def dv1_m : ℚ := (tb_x_mm + tb_w_mm * 0.48) / 1000
def dv2_m : ℚ := (tb_x_mm + tb_w_mm * 0.70) / 1000
def sig_box_w_mm : ℚ := 40
def sig_box_h_mm : ℚ := 12
def sig_start_x_mm : ℚ := tb_x_mm + tb_w_mm - sig_box_w_mm - 6
def sig_start_y_mm : ℚ := tb_y_mm + tb_h_mm + 6

/-- The 15 general-condition clauses (lines 358-374); `textwrap.fill` at
width 80 and the blank-line join are external text formatting applied to
exactly these lines. -/
def general_conditions : List String :=
  ["1. The single plot layout plan is approved based on the survey sketch certified by the Assistant Director of Land Records.",
   "2. Building construction shall be undertaken only after obtaining approval for the building plan from the city corporation as per the approved single site layout plan.",
   "3. The existing width of road abutting the site in question is marked in the plan. At the time of building plan approval the authority approving the building plan shall allow the maximum FAR permissible considering the minimum width of the road at any stretch towards any one side which shall join a road of equal or higher width.",
   "4. The owner shall provide drinking water, waste water discharge system and drainage system for the site in question. During the building plan approval the owner shall submit a design to implement the rain water harvesting to collect the rain water from the entire site area.",
   "5. Approval of single site layout plan shall not be a document to claim title to the property. In case of pending cases under the Land Reforms Act/Section 136(3) of the Land Revenue Act, 1964, approval of single site layout plan shall be subject to final order. The applicant shall be bound by the final order of the court in this regard and in no case the fees paid for the approval of the single site layout plan will be refunded.",
   "6. If it is found that the land proposed by the applicant includes any land belonging to the Government or any other private land, in such a case, the Authority reserves the rights to modify the single site layout plan or to withdraw the plan.",
   "7. If it is proved that the applicant has provided any false documents or forged documents for the plan sanction, the plan sanction shall stand canceled automatically.",
   "8. The applicant shall be bound to all subsequent orders and the decision relating to payment of fees as required by the Authority.",
   "9. Adequate provisions shall be made to segregate wet waste, dry waste and plastics. Area should be reserved for composting of wet waste, dry waste etc.",
   "10. No Objection Certificates/Approvals for the building plan should be obtained from the competent authorities prior to construction of building on the approved single site.",
   "11. Sewage shall not be discharged into open spaces/vacant areas but should be reused for gardening, cleaning of common areas and various other uses.",
   "12. If the owner wishes to modify the single site layout approval to multi-plot residential layout, the owner shall submit a request to the Greater Bengaluru Authority and obtain approval for the multi-plot residential layout plan as per the zoning regulations.",
   "13. One tree for every 240.0 sq.m of the total floor area shall be planted and nurtured at the site in question.",
   "14. Prior permission should be obtained from the competent authority before constructing a culvert on the storm water drain between the land in question and the existing road attached to it if any.",
   "15. To abide by such other conditions as may be imposed by the Authority from time to time."]

/-- The 4 note lines (lines 387-392). -/
def note_lines : List String :=
  ["1. The single plot plan is issued under the provisions of section 17 of KTCP Act 1961.",
   "2. The applicant has remitted fees of Rs.******* vide challan No. ********* Dated : **.**.****.",
   "3. The applicant has to abide by the conditions imposed in the single plot plan approval order.",
   "4. This single plot plan is issued vide number ***/***/***-******* dated : **.**.****."]

/-- Fallback emission of the general conditions as individual texts
(lines 380-384): line `i` at `y₀ - 0.012·i`. -/
def gc_fallback (env : Env) : List Prim :=
  general_conditions.enum.flatMap fun pr =>
    safeText env (.str pr.2) 0.008
      (gc_x_mm / 1000, gc_start_y_mm / 1000 - 0.012 * (pr.1 : ℚ)) "LEFT"

/-- Fallback emission of the notes as individual texts (lines 397-401):
line `i` at `y₀ - 0.010·i`. -/
def notes_fallback (env : Env) : List Prim :=
  note_lines.enum.flatMap fun pr =>
    safeText env (.str pr.2) 0.008
      (gc_x_mm / 1000, note_y_mm / 1000 - 0.010 * (pr.1 : ℚ)) "LEFT"

/-- Land-use table cell texts (lines 330-347): four centered headers, then
two rows whose area cells hold `width × length` formatted to one decimal. -/
def table_texts (env : Env) (inp : Inputs) : List Prim :=
  safeText env (.str "SL.No") 0.009
      ((lut_x_mm + 12 / 2) / 1000, header_y_mm / 1000) "MIDDLE_CENTER" ++
  safeText env (.str "PARTICULARS") 0.009
      ((lut_x_mm + 12 + 55 / 2) / 1000, header_y_mm / 1000) "MIDDLE_CENTER" ++
  safeText env (.str "AREA (Sq.m)") 0.009
      ((lut_x_mm + 12 + 55 + 30 / 2) / 1000, header_y_mm / 1000) "MIDDLE_CENTER" ++
  safeText env (.str "%") 0.009
      ((lut_x_mm + 12 + 55 + 30 + 20 / 2) / 1000, header_y_mm / 1000) "MIDDLE_CENTER" ++
  safeText env (.str "1") 0.007
      ((lut_x_mm + 12 / 2) / 1000, (header_y_mm - row_h_mm) / 1000) "MIDDLE_CENTER" ++
  safeText env (.str "SITE AREA") 0.007
      ((lut_x_mm + 12 + 55 / 2) / 1000, (header_y_mm - row_h_mm) / 1000) "MIDDLE_CENTER" ++
  safeText env (.areaCell (inp.site_width_m * inp.site_length_m)) 0.007
      ((lut_x_mm + 12 + 55 + 30 / 2) / 1000, (header_y_mm - row_h_mm) / 1000) "MIDDLE_CENTER" ++
  safeText env (.str "100.00") 0.007
      ((lut_x_mm + 12 + 55 + 30 + 20 / 2) / 1000, (header_y_mm - row_h_mm) / 1000) "MIDDLE_CENTER" ++
  safeText env (.str "2") 0.007
      ((lut_x_mm + 12 / 2) / 1000, (header_y_mm - 2 * row_h_mm) / 1000) "MIDDLE_CENTER" ++
  safeText env (.str "TOTAL SITE AREA") 0.007
      ((lut_x_mm + 12 + 55 / 2) / 1000, (header_y_mm - 2 * row_h_mm) / 1000) "MIDDLE_CENTER" ++
  safeText env (.areaCell (inp.site_width_m * inp.site_length_m)) 0.007
      ((lut_x_mm + 12 + 55 + 30 / 2) / 1000, (header_y_mm - 2 * row_h_mm) / 1000) "MIDDLE_CENTER" ++
  safeText env (.str "100.00") 0.007
      ((lut_x_mm + 12 + 55 + 30 + 20 / 2) / 1000, (header_y_mm - 2 * row_h_mm) / 1000) "MIDDLE_CENTER"

/-- The table border polyline (lines 349-353).  The source adds these points
in raw mm (no /1000 conversion) and without `closed`. -/
def table_border_prim : Prim :=
  .lwpolyline
    [(lut_x_mm - 1.5, header_y_mm + 2),
     (lut_x_mm - 1.5 + tbl_w_mm + 3, header_y_mm + 2),
     (lut_x_mm - 1.5 + tbl_w_mm + 3, header_y_mm + 2 - (2 + 1.2) * row_h_mm),
     (lut_x_mm - 1.5, header_y_mm + 2 - (2 + 1.2) * row_h_mm),
     (lut_x_mm - 1.5, header_y_mm + 2)] "BORDER" false none

/-- The 13 title-block texts plus the dimension note (lines 419-434). -/
def title_block_texts (env : Env) (inp : Inputs) : List Prim :=
  safeText env (.str "DRAWING TITLE : SINGLE SITE LAYOUT PLAN") 0.009
      (tb_x_m + 0.006, tb_y_m + (tb_h_mm - 7) / 1000) "LEFT" ++
  safeText env (.str (title_scale_text inp)) 0.007
      (tb_x_m + 0.006, tb_y_m + (tb_h_mm - 13) / 1000) "LEFT" ++
  safeText env (.builtup inp.total_builtup) 0.007
      (tb_x_m + 0.006, tb_y_m + (tb_h_mm - 19) / 1000) "LEFT" ++
  safeText env (.str ("SY. NO. : " ++ inp.survey_no)) 0.007
      (tb_x_m + 0.006, tb_y_m + (tb_h_mm - 25) / 1000) "LEFT" ++
  safeText env (.str ("VILLAGE : " ++ inp.village)) 0.007
      (dv1_m + 0.006, tb_y_m + (tb_h_mm - 7) / 1000) "LEFT" ++
  safeText env (.str ("TALUK : " ++ inp.taluk)) 0.007
      (dv1_m + 0.006, tb_y_m + (tb_h_mm - 13) / 1000) "LEFT" ++
  safeText env (.str ("EPID : " ++ inp.epid)) 0.007
      (dv1_m + 0.006, tb_y_m + (tb_h_mm - 19) / 1000) "LEFT" ++
  safeText env (.str "ROAD NAME : ") 0.007
      (dv1_m + 0.006, tb_y_m + (tb_h_mm - 25) / 1000) "LEFT" ++
  safeText env (.str "ROAD WIDTH : ") 0.007
      (dv2_m + 0.006, tb_y_m + (tb_h_mm - 7) / 1000) "LEFT" ++
  safeText env (.str "ROAD FACING : ") 0.007
      (dv2_m + 0.006, tb_y_m + (tb_h_mm - 13) / 1000) "LEFT" ++
  safeText env (.siteDims inp.site_length_m inp.site_width_m) 0.007
      (dv2_m + 0.006, tb_y_m + (tb_h_mm - 19) / 1000) "LEFT" ++
  safeText env
      (.str ("WARD NO. : " ++ inp.ward_no ++ "    CONSTITUENCY : " ++ inp.constituency))
      0.007 (dv2_m + 0.006, tb_y_m + (tb_h_mm - 25) / 1000) "LEFT" ++
  safeText env (.str "All Dimensions in metres.") 0.006
      ((PAGE_W_MM - RIGHT - 4) / 1000, tb_y_m + 0.003) "RIGHT"

/-- The four empty signature boxes (lines 437-448). -/
def sig_box_prims : List Prim :=
  (List.range 4).map fun i =>
    .lwpolyline
      [(sig_start_x_mm / 1000, (sig_start_y_mm + (i : ℚ) * (sig_box_h_mm + 4)) / 1000),
       ((sig_start_x_mm + sig_box_w_mm) / 1000,
        (sig_start_y_mm + (i : ℚ) * (sig_box_h_mm + 4)) / 1000),
       ((sig_start_x_mm + sig_box_w_mm) / 1000,
        (sig_start_y_mm + (i : ℚ) * (sig_box_h_mm + 4) + sig_box_h_mm) / 1000),
       (sig_start_x_mm / 1000,
        (sig_start_y_mm + (i : ℚ) * (sig_box_h_mm + 4) + sig_box_h_mm) / 1000),
       (sig_start_x_mm / 1000, (sig_start_y_mm + (i : ℚ) * (sig_box_h_mm + 4)) / 1000)]
      "BORDER" true none

/-- Primitives emitted after the road loop: site title, key-plan box and
image (or fallback text), ADLR box and image (or fallback text), land-use
table, general conditions, notes, title block, dividers, title texts and
signature boxes (lines 270-448), in source order. -/
def suf_prims (env : Env) (inp : Inputs) : List Prim :=
  safeText env (.str ("SITE (SY.NO. " ++ inp.survey_no ++ ")")) 0.010
      (site_x_m inp + site_w_m_draw inp / 2, site_y_m inp + site_h_m_draw inp + 0.018)
      "MIDDLE_CENTER" ++
  [.lwpolyline
      [(key_x_m, key_y_m),
       ((key_x_mm + key_w_mm) / 1000, key_y_m),
       ((key_x_mm + key_w_mm) / 1000, (key_y_mm + key_h_mm) / 1000),
       (key_x_m, (key_y_mm + key_h_mm) / 1000),
       (key_x_m, key_y_m)] "BORDER" true none] ++
  (if env.keyplanOk then
    [Prim.image "KEYPLAN" (key_x_m + 0.001, key_y_m + 0.001)
        (key_w_mm / 1000 - 0.002, key_h_mm / 1000 - 0.002),
     Prim.line (na_x_m, na_y_m) (na_x_m, na_y_m + 0.012) "BORDER"] ++
      safeText env (.str "N") 0.006 (na_x_m, na_y_m + 0.014) "MIDDLE_CENTER"
  else
    safeText env (.str "KEY PLAN (To be inserted)") 0.009
      (key_x_m + 0.05, key_y_m + 0.05) "LEFT") ++
  [.lwpolyline
      [(adlr_x_m, adlr_y_m),
       ((adlr_x_mm + adlr_w_mm) / 1000, adlr_y_m),
       ((adlr_x_mm + adlr_w_mm) / 1000, (adlr_y_mm + adlr_h_mm) / 1000),
       (adlr_x_m, (adlr_y_mm + adlr_h_mm) / 1000),
       (adlr_x_m, adlr_y_m)] "BORDER" true none] ++
  (if env.adlrOk then
    [Prim.image "ADLR" (adlr_x_m + 0.001, adlr_y_m + 0.001)
        (adlr_w_mm / 1000 - 0.002, adlr_h_mm / 1000 - 0.002)]
  else
    safeText env (.str "ADLR SKETCH (To be inserted)") 0.009
      (adlr_x_m + 0.05, adlr_y_m + 0.05) "LEFT") ++
  table_texts env inp ++
  [table_border_prim] ++
  (if env.gcMtextOk then
    [Prim.mtext general_conditions 0.008 0.11 "TEXT"
        (gc_x_mm / 1000, gc_start_y_mm / 1000)]
  else gc_fallback env) ++
  (if env.notesMtextOk then
    [Prim.mtext note_lines 0.008 0.11 "TEXT" (gc_x_mm / 1000, note_y_mm / 1000)]
  else notes_fallback env) ++
  [.lwpolyline
      [(tb_x_m, tb_y_m),
       ((tb_x_mm + tb_w_mm) / 1000, tb_y_m),
       ((tb_x_mm + tb_w_mm) / 1000, (tb_y_mm + tb_h_mm) / 1000),
       (tb_x_m, (tb_y_mm + tb_h_mm) / 1000),
       (tb_x_m, tb_y_m)] "BORDER" true none,
   .line (dv1_m, tb_y_m) (dv1_m, tb_y_m + tb_h_mm / 1000) "BORDER",
   .line (dv2_m, tb_y_m) (dv2_m, tb_y_m + tb_h_mm / 1000) "BORDER"] ++
  title_block_texts env inp ++
  sig_box_prims

/-- The whole emitted primitive sequence of one generation run, in source
order: pre-road geometry, then the road loop, then everything after it. -/
def doc_prims (env : Env) (inp : Inputs) : List Prim :=
  pre_prims inp ++ road_prims env inp ++ suf_prims env inp

/-- Clear one side's road flag, keeping its width and every other input
unchanged. -/
def set_road_absent (inp : Inputs) (side : Side) : Inputs :=
  { inp with roads :=
      Function.update inp.roads side ⟨false, (inp.roads side).width⟩ }

/-- A concrete input with the spec's end-to-end scenario values
(length 15 m, width 12 m, north road 6 m present, others absent). -/
def sampleInputs : Inputs where
  survey_no := "101"
  village := "V"
  taluk := "T"
  epid := "E"
  ward_no := "1"
  constituency := "C"
  total_builtup := 0
  site_length_m := 15
  site_width_m := 12
  roads := fun s => match s with
    | .north => ⟨true, 6⟩
    | _ => ⟨false, 0⟩

/-- A concrete oversized input that forces the fallback fit scale
(100 m × 100 m plot). -/
def bigInputs : Inputs :=
  { sampleInputs with site_length_m := 100, site_width_m := 100 }

/-- Claim C1: for positive site dimensions, the scale factor is exactly
10 mm per metre whenever `width*10 ≤ usable_w_mm` and
`length*10 ≤ usable_h_mm` (the drawing pane minus 8 mm padding per side);
otherwise it is `min (usable_w_mm/width) (usable_h_mm/length)`; and the one
factor applies identically to both axes: dividing the scaled plot width
(resp. height) by the scale factor returns the site width (resp. length). -/
theorem C1_scale_factor (inp : Inputs) (hw : 0 < inp.site_width_m)
    (hl : 0 < inp.site_length_m) :
    usable_w_mm = DRAW_W - 2 * inner_pad_mm ∧
    usable_h_mm = DRAW_H - 2 * inner_pad_mm ∧
    ((inp.site_width_m * 10 ≤ usable_w_mm ∧ inp.site_length_m * 10 ≤ usable_h_mm) →
      mm_per_m_use inp = 10) ∧
    (¬ (inp.site_width_m * 10 ≤ usable_w_mm ∧ inp.site_length_m * 10 ≤ usable_h_mm) →
      mm_per_m_use inp =
        min (usable_w_mm / inp.site_width_m) (usable_h_mm / inp.site_length_m)) ∧
    site_w_mm_draw inp / mm_per_m_use inp = inp.site_width_m ∧
    site_h_mm_draw inp / mm_per_m_use inp = inp.site_length_m := by
  have hdefault : mm_per_m_default = 10 := by norm_num [mm_per_m_default]
  have hpos := mm_per_m_use_pos inp hw hl
  refine ⟨rfl, rfl, ?_, ?_, ?_, ?_⟩
  · intro h
    rw [mm_per_m_use, if_pos (by rw [hdefault]; exact h)]
    exact hdefault
  · intro h
    rw [mm_per_m_use, if_neg (by rw [hdefault]; exact h)]
  · rw [site_w_mm_draw, mul_div_assoc, div_self hpos.ne', mul_one]
  · rw [site_h_mm_draw, mul_div_assoc, div_self hpos.ne', mul_one]

/-- Witness for C1 at the spec's end-to-end scenario (12 m × 15 m). -/
theorem C1_scale_factor_witness :
    0 < sampleInputs.site_width_m ∧ 0 < sampleInputs.site_length_m ∧
    mm_per_m_use sampleInputs = 10 := by
  have h := C1_scale_factor sampleInputs (by norm_num [sampleInputs])
    (by norm_num [sampleInputs])
  refine ⟨by norm_num [sampleInputs], by norm_num [sampleInputs], ?_⟩
  exact h.2.2.1 (by norm_num [sampleInputs, usable_w_mm, usable_h_mm, DRAW_W,
    DRAW_H, PAGE_W_MM, PAGE_H_MM, TOP, BOTTOM, inner_pad_mm])

/-- Claim C2: for positive site dimensions the plot rectangle lies inside the
drawing pane's usable interior (pane shrunk by the 8 mm padding), on both
axes, and is centered there: the leftover margin is split equally on both
sides of each axis.  This holds in both scale branches since the proof does
not case on `mm_per_m_use`. -/
theorem C2_plot_rect_contained (inp : Inputs) (hw : 0 < inp.site_width_m)
    (hl : 0 < inp.site_length_m) :
    DRAW_X + inner_pad_mm ≤ site_x_mm inp ∧
    site_x_mm inp + site_w_mm_draw inp ≤ DRAW_X + inner_pad_mm + usable_w_mm ∧
    DRAW_Y + inner_pad_mm ≤ site_y_mm inp ∧
    site_y_mm inp + site_h_mm_draw inp ≤ DRAW_Y + inner_pad_mm + usable_h_mm ∧
    0 < site_w_mm_draw inp ∧ 0 < site_h_mm_draw inp ∧
    site_x_mm inp - (DRAW_X + inner_pad_mm) =
      (DRAW_X + inner_pad_mm + usable_w_mm) - (site_x_mm inp + site_w_mm_draw inp) ∧
    site_y_mm inp - (DRAW_Y + inner_pad_mm) =
      (DRAW_Y + inner_pad_mm + usable_h_mm) - (site_y_mm inp + site_h_mm_draw inp) := by
  have hwle := site_w_mm_draw_le inp hw
  have hhle := site_h_mm_draw_le inp hl
  have hwpos : 0 < site_w_mm_draw inp :=
    mul_pos hw (mm_per_m_use_pos inp hw hl)
  have hhpos : 0 < site_h_mm_draw inp :=
    mul_pos hl (mm_per_m_use_pos inp hw hl)
  refine ⟨?_, ?_, ?_, ?_, hwpos, hhpos, ?_, ?_⟩ <;>
    simp only [site_x_mm, site_y_mm]
  · linarith
  · linarith
  · linarith
  · linarith
  · ring
  · ring

/-- Witness for C2 at the oversized 100 m × 100 m input (fallback branch). -/
theorem C2_plot_rect_contained_witness :
    0 < bigInputs.site_width_m ∧ 0 < bigInputs.site_length_m ∧
    DRAW_X + inner_pad_mm ≤ site_x_mm bigInputs := by
  refine ⟨by norm_num [bigInputs, sampleInputs], by norm_num [bigInputs, sampleInputs], ?_⟩
  exact (C2_plot_rect_contained bigInputs (by norm_num [bigInputs, sampleInputs])
    (by norm_num [bigInputs, sampleInputs])).1

/-- Claim C10: for positive site dimensions the scale factor is strictly
positive, never exceeds the canonical 10 mm per metre, and is strictly
below 10 whenever the fallback branch is taken. -/
theorem C10_scale_factor_bounds (inp : Inputs) (hw : 0 < inp.site_width_m)
    (hl : 0 < inp.site_length_m) :
    0 < mm_per_m_use inp ∧ mm_per_m_use inp ≤ 10 ∧
    (¬ (inp.site_width_m * mm_per_m_default ≤ usable_w_mm ∧
        inp.site_length_m * mm_per_m_default ≤ usable_h_mm) →
      mm_per_m_use inp < 10) := by
  have hdefault : mm_per_m_default = 10 := by norm_num [mm_per_m_default]
  refine ⟨mm_per_m_use_pos inp hw hl, ?_, ?_⟩
  · unfold mm_per_m_use
    split
    · norm_num [mm_per_m_default]
    · next h =>
      rcases not_and_or.mp h with h1 | h1
      · refine le_of_lt (lt_of_le_of_lt (min_le_left _ _) ?_)
        rw [div_lt_iff₀ hw]
        rw [hdefault] at h1
        linarith [not_le.mp h1]
      · refine le_of_lt (lt_of_le_of_lt (min_le_right _ _) ?_)
        rw [div_lt_iff₀ hl]
        rw [hdefault] at h1
        linarith [not_le.mp h1]
  · intro h
    rw [mm_per_m_use, if_neg h]
    rcases not_and_or.mp h with h1 | h1
    · refine lt_of_le_of_lt (min_le_left _ _) ?_
      rw [div_lt_iff₀ hw]
      rw [hdefault] at h1
      linarith [not_le.mp h1]
    · refine lt_of_le_of_lt (min_le_right _ _) ?_
      rw [div_lt_iff₀ hl]
      rw [hdefault] at h1
      linarith [not_le.mp h1]

/-- Witness for C10 at the oversized input: the fallback scale is
`min (244.4/100) (257/100) = 2.444`, strictly between 0 and 10. -/
theorem C10_scale_factor_bounds_witness :
    0 < bigInputs.site_width_m ∧ 0 < bigInputs.site_length_m ∧
    mm_per_m_use bigInputs < 10 := by
  have h := C10_scale_factor_bounds bigInputs (by norm_num [bigInputs, sampleInputs])
    (by norm_num [bigInputs, sampleInputs])
  refine ⟨by norm_num [bigInputs, sampleInputs], by norm_num [bigInputs, sampleInputs], ?_⟩
  exact h.2.2 (by norm_num [bigInputs, sampleInputs, mm_per_m_default, usable_w_mm,
    usable_h_mm, DRAW_W, DRAW_H, PAGE_W_MM, PAGE_H_MM, TOP, BOTTOM, inner_pad_mm])

/-- Claim C3: for each side, road geometry is emitted iff the side's
`exists` flag is true; when emitted, the band polygon is the rectangle flush
against the corresponding edge of the plot rectangle, extending its full
length, with thickness `roadWidth * mm_per_m_use` (height of the band for
north/south, width for east/west). -/
theorem C3_road_bands (inp : Inputs) (side : Side) :
    ((roadGeometry inp side).isSome ↔ (inp.roads side).present = true) ∧
    ((inp.roads side).present = true →
      roadGeometry inp side = some (road_poly_mm inp side, road_label_mm inp side)) ∧
    road_band_mm inp side = (inp.roads side).width * mm_per_m_use inp ∧
    road_poly_mm inp .north =
      rectPoly (site_x_mm inp) (site_y_mm inp + site_h_mm_draw inp)
        (site_w_mm_draw inp) (road_band_mm inp .north) ∧
    road_poly_mm inp .south =
      rectPoly (site_x_mm inp) (site_y_mm inp - road_band_mm inp .south)
        (site_w_mm_draw inp) (road_band_mm inp .south) ∧
    road_poly_mm inp .east =
      rectPoly (site_x_mm inp + site_w_mm_draw inp) (site_y_mm inp)
        (road_band_mm inp .east) (site_h_mm_draw inp) ∧
    road_poly_mm inp .west =
      rectPoly (site_x_mm inp - road_band_mm inp .west) (site_y_mm inp)
        (road_band_mm inp .west) (site_h_mm_draw inp) := by
  refine ⟨?_, ?_, rfl, ?_, ?_, ?_, ?_⟩
  · unfold roadGeometry
    cases h : (inp.roads side).present <;> simp [h]
  · intro h
    unfold roadGeometry
    rw [if_pos h]
  all_goals
    simp only [road_poly_mm, rectPoly, List.cons.injEq, Prod.mk.injEq,
      and_true, List.nil_eq]
  all_goals and_intros <;> first | trivial | ring

/-- Witness for C3 at the end-to-end scenario (north road present). -/
theorem C3_road_bands_witness :
    (sampleInputs.roads .north).present = true ∧
    roadGeometry sampleInputs .north =
      some (road_poly_mm sampleInputs .north, road_label_mm sampleInputs .north) := by
  refine ⟨rfl, ?_⟩
  exact (C3_road_bands sampleInputs .north).2.1 rfl

/-- Claim C5: for every key-plan zoom in `10..19` and every key-plan buffer
radius, the ADLR inset uses zoom `min 19 (kp_zoom + 3)` and the fixed 50 m
buffer radius, independent of the key-plan radius. -/
theorem C5_adlr_params (kp_zoom : ℤ) (kp_radius_m : ℚ)
    (h10 : 10 ≤ kp_zoom) (h19 : kp_zoom ≤ 19) :
    (adlr_params kp_zoom kp_radius_m).zoom = min 19 (kp_zoom + 3) ∧
    (adlr_params kp_zoom kp_radius_m).radius_m = 50 ∧
    (∀ r : ℚ, adlr_params kp_zoom kp_radius_m = adlr_params kp_zoom r) ∧
    13 ≤ (adlr_params kp_zoom kp_radius_m).zoom ∧
    (adlr_params kp_zoom kp_radius_m).zoom ≤ 19 := by
  refine ⟨rfl, rfl, fun r => rfl, ?_, ?_⟩
  · simp only [adlr_params, adlr_zoom, le_min_iff]
    omega
  · exact min_le_left _ _

/-- Witness for C5 at zoom 16 (the form default) and radius 200. -/
theorem C5_adlr_params_witness :
    (10 : ℤ) ≤ 16 ∧ (16 : ℤ) ≤ 19 ∧
    (adlr_params 16 200).zoom = min 19 (16 + 3) ∧
    (adlr_params 16 200).radius_m = 50 :=
  ⟨by norm_num, by norm_num,
    (C5_adlr_params 16 200 (by norm_num) (by norm_num)).1,
    (C5_adlr_params 16 200 (by norm_num) (by norm_num)).2.1⟩

/-- Claim C9: on every run the title-block scale line is the constant string
`"SCALE : 1:100"`, including runs where the fallback fit scale is taken and
`mm_per_m_use` differs from the canonical 10 mm per metre (witnessed by the
100 m × 100 m input, whose scale factor is 2.444). -/
theorem C9_scale_text_constant :
    (∀ inp : Inputs, title_scale_text inp = "SCALE : 1:100") ∧
    mm_per_m_use bigInputs ≠ 10 ∧
    title_scale_text bigInputs = "SCALE : 1:100" := by
  refine ⟨fun inp => rfl, ?_, rfl⟩
  norm_num [mm_per_m_use, mm_per_m_default, bigInputs, sampleInputs,
    usable_w_mm, usable_h_mm, DRAW_W, DRAW_H, PAGE_W_MM, PAGE_H_MM,
    TOP, BOTTOM, inner_pad_mm]

/-- Claim C6: when every tile fetch fails, the composed inset is still a
complete stitched canvas of the full `(2*tiles_radius+1)`-tile grid, every
grid position is pasted with the uniform solid placeholder tile, and the
buffer circle and center dot are drawn at the pixel offset derived from the
fractional tile coordinates of the center; the composition is total (a
`Stitched` value is always returned, never an error). -/
theorem C6_tile_failure_graceful (tc : Transcend) (lat lon : ℚ) (zoom : ℕ)
    (radius_m : ℚ) (tiles_radius scale : ℕ) :
    (make_keyplan_image tc failHttp lat lon zoom radius_m tiles_radius scale).size =
      ((2 * tiles_radius + 1) * tile_px_of scale,
       (2 * tiles_radius + 1) * tile_px_of scale) ∧
    (make_keyplan_image tc failHttp lat lon zoom radius_m tiles_radius scale).pastes =
      (pyRange (-(tiles_radius : ℤ)) ((tiles_radius : ℤ) + 1)).flatMap (fun dy =>
        (pyRange (-(tiles_radius : ℤ)) ((tiles_radius : ℤ) + 1)).map (fun dx =>
          (placeholder_tile scale,
            ((dx + (tiles_radius : ℤ)) * (tile_px_of scale : ℤ),
             (dy + (tiles_radius : ℤ)) * (tile_px_of scale : ℤ))))) ∧
    (make_keyplan_image tc failHttp lat lon zoom radius_m tiles_radius scale).pastes.length =
      (2 * tiles_radius + 1) * (2 * tiles_radius + 1) ∧
    (∀ p ∈ (make_keyplan_image tc failHttp lat lon zoom radius_m tiles_radius scale).pastes,
      p.1 = placeholder_tile scale) ∧
    (make_keyplan_image tc failHttp lat lon zoom radius_m tiles_radius scale).circle_bbox =
      (let fx := (latlon_to_tile_xy tc lat lon zoom).1
       let fy := (latlon_to_tile_xy tc lat lon zoom).2
       let cx := (tiles_radius : ℤ) * (tile_px_of scale : ℤ) +
         pyInt ((fx - (⌊fx⌋ : ℚ)) * (tile_px_of scale : ℚ))
       let cy := (tiles_radius : ℤ) * (tile_px_of scale : ℤ) +
         pyInt ((fy - (⌊fy⌋ : ℚ)) * (tile_px_of scale : ℚ))
       let rpx := max 3 (pyInt (radius_m /
         ((tc.cos (lat * tc.pi / 180) * 2 * tc.pi * 6378137) /
           ((tile_px_of scale : ℚ) * 2 ^ zoom))))
       [cx - rpx, cy - rpx, cx + rpx, cy + rpx]) ∧
    (make_keyplan_image tc failHttp lat lon zoom radius_m tiles_radius scale).dot_bbox =
      (let fx := (latlon_to_tile_xy tc lat lon zoom).1
       let fy := (latlon_to_tile_xy tc lat lon zoom).2
       let cx := (tiles_radius : ℤ) * (tile_px_of scale : ℤ) +
         pyInt ((fx - (⌊fx⌋ : ℚ)) * (tile_px_of scale : ℚ))
       let cy := (tiles_radius : ℤ) * (tile_px_of scale : ℤ) +
         pyInt ((fy - (⌊fy⌋ : ℚ)) * (tile_px_of scale : ℚ))
       [cx - 3, cy - 3, cx + 3, cy + 3]) ∧
    (∀ i j : ℕ, (placeholder_tile scale).pixel i j = (240, 240, 240, 255)) := by
  have hp : (make_keyplan_image tc failHttp lat lon zoom radius_m tiles_radius scale).pastes =
      (pyRange (-(tiles_radius : ℤ)) ((tiles_radius : ℤ) + 1)).flatMap (fun dy =>
        (pyRange (-(tiles_radius : ℤ)) ((tiles_radius : ℤ) + 1)).map (fun dx =>
          (placeholder_tile scale,
            ((dx + (tiles_radius : ℤ)) * (tile_px_of scale : ℤ),
             (dy + (tiles_radius : ℤ)) * (tile_px_of scale : ℤ))))) := rfl
  refine ⟨rfl, hp, ?_, ?_, rfl, rfl, fun i j => rfl⟩
  · rw [hp, length_flatMap_map, pyRange_length]
    have hn : ((tiles_radius : ℤ) + 1 - -(tiles_radius : ℤ)).toNat =
        2 * tiles_radius + 1 := by omega
    rw [hn]
  · intro p hpm
    rw [hp] at hpm
    simp only [List.mem_flatMap, List.mem_map] at hpm
    obtain ⟨dy, _, dx, _, h⟩ := hpm
    rw [← h]

/-- A trivial concrete instance of the transcendental capability. -/
def tcZero : Transcend := ⟨fun _ => 0, fun _ => 0, fun _ => 0, 0⟩

/-- Witness for C6: on an always-failing fetch at a concrete center, the
default 3×3 grid is fully pasted (9 placeholder tiles). -/
theorem C6_tile_failure_graceful_witness :
    (make_keyplan_image tcZero failHttp 0 0 1 200 1 2).pastes.length = 9 ∧
    (placeholder_tile 2).pixel 0 0 = (240, 240, 240, 255) := by
  have h := C6_tile_failure_graceful tcZero 0 0 1 200 1 2
  exact ⟨by rw [h.2.2.1], h.2.2.2.2.2.2 0 0⟩

/-- Claim C7: for every malformed center input — a comma-containing string
either of whose parts fails `float` parsing, or a comma-free query whose
geocoding fails or returns no result — the resolved center is exactly the
default `(12.9715987, 77.5945627)`, and resolution is total (no error is
surfaced). -/
theorem C7_center_fallback (pyFloat : String → Option ℚ)
    (geocode : String → Option (ℚ × ℚ)) (txt : String) :
    (contains_comma txt = true →
      (pyFloat (split_once_comma txt).1.trim = none ∨
        pyFloat (split_once_comma txt).2.trim = none) →
      resolve_center pyFloat geocode txt = (12.9715987, 77.5945627)) ∧
    (contains_comma txt = false → geocode txt = none →
      resolve_center pyFloat geocode txt = (12.9715987, 77.5945627)) := by
  constructor
  · intro hc hfail
    unfold resolve_center
    by_cases ht : txt.trim = ""
    · simp [ht, default_center]
    · rcases hfail with h1 | h1 <;>
        · rcases h2 : pyFloat (split_once_comma txt).1.trim with _ | a <;>
            rcases h3 : pyFloat (split_once_comma txt).2.trim with _ | b <;>
            simp_all [ht, hc, default_center]
  · intro hc hfail
    unfold resolve_center
    by_cases ht : txt.trim = ""
    · simp [ht, default_center]
    · simp [ht, hc, hfail, default_center]

/-- Witness for C7: a malformed coordinate pair and a failed geocode both
resolve to the default center. -/
theorem C7_center_fallback_witness :
    resolve_center (fun _ => none) (fun _ => none) "12.97, not-a-number" =
      (12.9715987, 77.5945627) ∧
    resolve_center (fun _ => none) (fun _ => none) "some address" =
      (12.9715987, 77.5945627) := by
  constructor
  · exact (C7_center_fallback (fun _ => none) (fun _ => none)
      "12.97, not-a-number").1 (by decide) (Or.inl rfl)
  · exact (C7_center_fallback (fun _ => none) (fun _ => none)
      "some address").2 (by decide) rfl

/-- Claim C8: text emission through `safe_add_text` never aborts: the
emitted primitives are exactly the accepted requests in order, the warnings
are exactly the rejected requests in order, and a single rejected request in
the middle of a sequence is skipped with one warning while every primitive
before and after it is still emitted. -/
theorem C8_emission_degrades (ser : TextReq → Bool) (ts pre post : List TextReq)
    (bad : TextReq) (hbad : ser bad = false) :
    (emit_texts ser ts).1 = (ts.filter ser).map Prim.text ∧
    (emit_texts ser ts).2 = ts.filter (fun t => ! ser t) ∧
    emit_texts ser (pre ++ bad :: post) =
      ((emit_texts ser pre).1 ++ (emit_texts ser post).1,
       (emit_texts ser pre).2 ++ bad :: (emit_texts ser post).2) := by
  refine ⟨emit_texts_fst ser ts, emit_texts_snd ser ts, ?_⟩
  rw [emit_texts_append]
  simp [emit_texts, safe_add_text, hbad]

/-- A text request with a degenerate (zero) height. -/
def degenerateReq : TextReq := ⟨.str "BAD", 0, (0, 0), "TEXT", "LEFT"⟩

/-- A well-formed text request. -/
def okReq1 : TextReq := ⟨.str "DRAWING TITLE : SINGLE SITE LAYOUT PLAN", 0.009,
  (0.018, 0.04), "TEXT", "LEFT"⟩

/-- Another well-formed text request. -/
def okReq2 : TextReq := ⟨.str "All Dimensions in metres.", 0.006,
  (0.404, 0.015), "TEXT", "RIGHT"⟩

/-- A serializer that rejects degenerate (non-positive) text heights. -/
def serHeightPos : TextReq → Bool := fun t => decide (0 < t.height)

/-- Witness for C8: with a serializer rejecting zero heights, the degenerate
request in the middle is skipped with one warning and both neighbours are
still emitted. -/
theorem C8_emission_degrades_witness :
    serHeightPos degenerateReq = false ∧
    emit_texts serHeightPos [okReq1, degenerateReq, okReq2] =
      ([Prim.text okReq1, Prim.text okReq2], [degenerateReq]) := by
  have hbad : serHeightPos degenerateReq = false := by
    simp [serHeightPos, degenerateReq]
  have h := C8_emission_degrades serHeightPos [] [okReq1] [okReq2] degenerateReq hbad
  refine ⟨hbad, ?_⟩
  have h2 : [okReq1, degenerateReq, okReq2] = [okReq1] ++ degenerateReq :: [okReq2] := rfl
  rw [h2, h.2.2]
  norm_num [emit_texts, safe_add_text, serHeightPos, okReq1, okReq2]

lemma road_side_prims_present (env : Env) (inp : Inputs) (side : Side)
    (hpres : (inp.roads side).present = true)
    (hser : env.textOk ⟨.roadLabel side (inp.roads side).width, 0.009,
      ((road_label_mm inp side).1 / 1000, (road_label_mm inp side).2 / 1000),
      "TEXT", "MIDDLE_CENTER"⟩ = true) :
    road_side_prims env inp side =
      [Prim.lwpolyline ((road_poly_mm inp side).map (fun p => (p.1 / 1000, p.2 / 1000)))
          "ROAD" true none,
       Prim.text ⟨.roadLabel side (inp.roads side).width, 0.009,
          ((road_label_mm inp side).1 / 1000, (road_label_mm inp side).2 / 1000),
          "TEXT", "MIDDLE_CENTER"⟩] := by
  simp [road_side_prims, roadGeometry, hpres, safeText, safe_add_text, hser]

lemma road_side_prims_cleared (env : Env) (inp : Inputs) (side : Side) :
    road_side_prims env (set_road_absent inp side) side = [] := by
  simp [road_side_prims, roadGeometry, set_road_absent, Function.update_same]

/-- Claim C4: changing exactly one side's road flag from true to false,
holding every other input and every external outcome fixed, removes exactly
that side's band polyline and its label from the emitted sequence and leaves
every other primitive — in its original order — unchanged: the two documents
decompose as `l₁ ++ [band, label] ++ l₂` and `l₁ ++ l₂` with common `l₁`,
`l₂`.  (The serializer hypothesis says the side's label was actually
accepted, so exactly two primitives are removed.) -/
theorem C4_disable_road_frame (env : Env) (inp : Inputs) (side : Side)
    (hpres : (inp.roads side).present = true)
    (hser : env.textOk ⟨.roadLabel side (inp.roads side).width, 0.009,
      ((road_label_mm inp side).1 / 1000, (road_label_mm inp side).2 / 1000),
      "TEXT", "MIDDLE_CENTER"⟩ = true) :
    ∃ l₁ l₂ : List Prim,
      doc_prims env inp = l₁ ++
        (Prim.lwpolyline ((road_poly_mm inp side).map (fun p => (p.1 / 1000, p.2 / 1000)))
            "ROAD" true none ::
         Prim.text ⟨.roadLabel side (inp.roads side).width, 0.009,
            ((road_label_mm inp side).1 / 1000, (road_label_mm inp side).2 / 1000),
            "TEXT", "MIDDLE_CENTER"⟩ :: l₂) ∧
      doc_prims env (set_road_absent inp side) = l₁ ++ l₂ := by
  have hband := road_side_prims_present env inp side hpres hser
  have hnone := road_side_prims_cleared env inp side
  cases side with
  | north =>
    refine ⟨pre_prims inp,
      road_side_prims env inp .south ++ road_side_prims env inp .east ++
        road_side_prims env inp .west ++ suf_prims env inp, ?_, ?_⟩
    · simp [doc_prims, road_prims, sidesOrder, hband]
    · have hpre : pre_prims (set_road_absent inp .north) = pre_prims inp := rfl
      have hsuf : suf_prims env (set_road_absent inp .north) = suf_prims env inp := rfl
      have hs : road_side_prims env (set_road_absent inp .north) .south =
        road_side_prims env inp .south := rfl
      have he : road_side_prims env (set_road_absent inp .north) .east =
        road_side_prims env inp .east := rfl
      have hw : road_side_prims env (set_road_absent inp .north) .west =
        road_side_prims env inp .west := rfl
      simp [doc_prims, road_prims, sidesOrder, hnone, hpre, hsuf, hs, he, hw]
  | south =>
    refine ⟨pre_prims inp ++ road_side_prims env inp .north,
      road_side_prims env inp .east ++ road_side_prims env inp .west ++
        suf_prims env inp, ?_, ?_⟩
    · simp [doc_prims, road_prims, sidesOrder, hband]
    · have hpre : pre_prims (set_road_absent inp .south) = pre_prims inp := rfl
      have hsuf : suf_prims env (set_road_absent inp .south) = suf_prims env inp := rfl
      have hn : road_side_prims env (set_road_absent inp .south) .north =
        road_side_prims env inp .north := rfl
      have he : road_side_prims env (set_road_absent inp .south) .east =
        road_side_prims env inp .east := rfl
      have hw : road_side_prims env (set_road_absent inp .south) .west =
        road_side_prims env inp .west := rfl
      simp [doc_prims, road_prims, sidesOrder, hnone, hpre, hsuf, hn, he, hw]
  | east =>
    refine ⟨pre_prims inp ++ road_side_prims env inp .north ++
        road_side_prims env inp .south,
      road_side_prims env inp .west ++ suf_prims env inp, ?_, ?_⟩
    · simp [doc_prims, road_prims, sidesOrder, hband]
    · have hpre : pre_prims (set_road_absent inp .east) = pre_prims inp := rfl
      have hsuf : suf_prims env (set_road_absent inp .east) = suf_prims env inp := rfl
      have hn : road_side_prims env (set_road_absent inp .east) .north =
        road_side_prims env inp .north := rfl
      have hs : road_side_prims env (set_road_absent inp .east) .south =
        road_side_prims env inp .south := rfl
      have hw : road_side_prims env (set_road_absent inp .east) .west =
        road_side_prims env inp .west := rfl
      simp [doc_prims, road_prims, sidesOrder, hnone, hpre, hsuf, hn, hs, hw]
  | west =>
    refine ⟨pre_prims inp ++ road_side_prims env inp .north ++
        road_side_prims env inp .south ++ road_side_prims env inp .east,
      suf_prims env inp, ?_, ?_⟩
    · simp [doc_prims, road_prims, sidesOrder, hband]
    · have hpre : pre_prims (set_road_absent inp .west) = pre_prims inp := rfl
      have hsuf : suf_prims env (set_road_absent inp .west) = suf_prims env inp := rfl
      have hn : road_side_prims env (set_road_absent inp .west) .north =
        road_side_prims env inp .north := rfl
      have hs : road_side_prims env (set_road_absent inp .west) .south =
        road_side_prims env inp .south := rfl
      have he : road_side_prims env (set_road_absent inp .west) .east =
        road_side_prims env inp .east := rfl
      simp [doc_prims, road_prims, sidesOrder, hnone, hpre, hsuf, hn, hs, he]

/-- An environment where every external step succeeds and the serializer
accepts every text. -/
def envAll : Env := ⟨fun _ => true, true, true, true, true⟩

/-- Witness for C4 at the end-to-end scenario: disabling the north road of
the sample input removes exactly its band and label. -/
theorem C4_disable_road_frame_witness :
    ∃ l₁ l₂ : List Prim,
      doc_prims envAll sampleInputs = l₁ ++
        (Prim.lwpolyline
            ((road_poly_mm sampleInputs .north).map (fun p => (p.1 / 1000, p.2 / 1000)))
            "ROAD" true none ::
         Prim.text ⟨.roadLabel .north (sampleInputs.roads .north).width, 0.009,
            ((road_label_mm sampleInputs .north).1 / 1000,
             (road_label_mm sampleInputs .north).2 / 1000),
            "TEXT", "MIDDLE_CENTER"⟩ :: l₂) ∧
      doc_prims envAll (set_road_absent sampleInputs .north) = l₁ ++ l₂ :=
  C4_disable_road_frame envAll sampleInputs .north rfl rfl

end SitePlan
